import Mathlib

/-!
Verification of the Corona Steamworks plugin event-bridging layer.

This file gives a shallow embedding of the data model and operations of the
plugin (RuntimeContext, dispatch event tasks, Lua entry points, value-type
registries, image info) and proves properties of that embedding.

Conventions of the embedding:
- Machine integers are modelled as Nat or Int; where C++ truncates to a
  fixed width, an explicit modulus appears.
- Lua strings are modelled as List Nat of character codes where the byte
  content matters (decimal serialization of 64-bit IDs), and as String
  where only identity matters (stat and leaderboard names).
- Pointers that may be null are modelled as Option; the Steam SDK
  interfaces are modelled as Option-valued environments, with none standing
  for a null interface pointer (Steam client not running).
- Each C++ function is translated into a Lean definition with the same
  name where possible.
-/

namespace Steamworks

/-! ## SteamImageInfo (SteamImageInfo.cpp / SteamImageInfo.h)

The C++ class holds an int image handle and two uint32 pixel dimensions.
The default constructor initializes all three fields to zero. -/

structure SteamImageInfo where
  fImageHandle : Int
  fPixelWidth : Nat
  fPixelHeight : Nat
deriving Repr, DecidableEq

/-- Mirrors the default constructor SteamImageInfo::SteamImageInfo, which
sets fImageHandle, fPixelWidth and fPixelHeight to 0. -/
def SteamImageInfo.invalid : SteamImageInfo := ⟨0, 0, 0⟩

/-- Translation of SteamImageInfo::IsValid (SteamImageInfo.cpp lines 28-38):
nested if statements on the handle and the two pixel dimensions. -/
def SteamImageInfo.IsValid (info : SteamImageInfo) : Bool :=
  if (info.fImageHandle != 0) && (info.fImageHandle != -1) then
    if (info.fPixelWidth > 0) && (info.fPixelHeight > 0) then
      true
    else
      false
  else
    false

/-- Translation of SteamImageInfo::IsNotValid (SteamImageInfo.cpp lines 40-43). -/
def SteamImageInfo.IsNotValid (info : SteamImageInfo) : Bool :=
  !(info.IsValid)

/-- The ISteamUtils interface, reduced to the one operation the embedded
code calls on it: GetImageSize, which either fails (returns false in C++,
none here) or yields a pixel width and height for an image handle. -/
structure SteamUtilsEnv where
  getImageSize : Int → Option (Nat × Nat)

/-- Translation of SteamImageInfo::FromImageHandle (SteamImageInfo.cpp
lines 90-112). The utils argument is the result of the SteamUtils()
accessor: none models a null interface pointer. On any failure the
default-constructed (invalid) image info is returned. -/
def SteamImageInfo.FromImageHandle
    (utils : Option SteamUtilsEnv) (imageHandle : Int) : SteamImageInfo :=
  match utils with
  | none => SteamImageInfo.invalid
  | some u =>
    match u.getImageSize imageHandle with
    | none => SteamImageInfo.invalid
    | some (w, h) => ⟨imageHandle, w, h⟩

/-! ## Decimal serialization of 64-bit IDs

The C++ code serializes uint64 user/account IDs with an
std::stringstream imbued with the classic locale (operator<<), producing
the usual base-10 digit string, and parses them back with operator>> on
the same stream type. We model the character sequence as a list of
character codes (ASCII), the digit k being code 48 + k. -/

/-- The decimal character codes printed for a uint64 value by
operator<< on a classic-locale stringstream: most significant digit
first; the value 0 prints as the single digit 0. -/
def uint64ToDecimalCodes (n : Nat) : List Nat :=
  if n = 0 then [48] else (Nat.digits 10 n).reverse.map (fun d => 48 + d)

/-- One step of operator>> digit consumption: a code c is a decimal digit
when 48 ≤ c ≤ 57, contributing c - 48. -/
def decDigitOfCode (c : Nat) : Option Nat :=
  if 48 ≤ c ∧ c ≤ 57 then some (c - 48) else none

/-- The accumulator loop of operator>> over an all-digit token: consume
codes left to right, folding acc * 10 + digit. Fails on a non-digit. -/
def parseDecimalAux : List Nat → Nat → Option Nat
  | [], acc => some acc
  | c :: rest, acc =>
    match decDigitOfCode c with
    | none => none
    | some d => parseDecimalAux rest (acc * 10 + d)

/-- Translation of the success path of `stringstream >> integerId` on an
all-digit token (part_003 lines 619-636 and the other accessors): an
empty token fails (the stream sets failbit), otherwise the digits are
accumulated in base 10. -/
def parseUint64Codes (cs : List Nat) : Option Nat :=
  match cs with
  | [] => none
  | _ :: _ => parseDecimalAux cs 0

lemma parseDecimalAux_map_encode (L : List Nat) (hL : ∀ d ∈ L, d < 10) (a : Nat) :
    parseDecimalAux (L.map (fun d => 48 + d)) a =
      some (L.foldl (fun acc d => acc * 10 + d) a) := by
  induction L generalizing a with
  | nil => rfl
  | cons d T ih =>
    have hd : d < 10 := hL d (List.mem_cons_self d T)
    have hT : ∀ x ∈ T, x < 10 := fun x hx => hL x (List.mem_cons_of_mem d hx)
    simp only [List.map_cons, parseDecimalAux, decDigitOfCode]
    have hcond : 48 ≤ 48 + d ∧ 48 + d ≤ 57 := by omega
    rw [if_pos hcond]
    have henc : 48 + d - 48 = d := by omega
    rw [henc]
    simpa using ih hT (a * 10 + d)

lemma foldl_reverse_ofDigits (L : List Nat) (a : Nat) :
    L.reverse.foldl (fun acc d => acc * 10 + d) a =
      a * 10 ^ L.length + Nat.ofDigits 10 L := by
  induction L generalizing a with
  | nil => simp [Nat.ofDigits_nil]
  | cons d T ih =>
    simp only [List.reverse_cons, List.foldl_append, List.foldl_cons, List.foldl_nil,
      Nat.ofDigits_cons, List.length_cons]
    rw [ih a]
    ring

/-- Round-trip at the level of digit-code lists: parsing the printed
decimal form of any Nat recovers the value. -/
lemma parse_uint64ToDecimalCodes (n : Nat) :
    parseUint64Codes (uint64ToDecimalCodes n) = some n := by
  by_cases hn : n = 0
  · subst hn; rfl
  · unfold uint64ToDecimalCodes
    rw [if_neg hn]
    have hne : Nat.digits 10 n ≠ [] := Nat.digits_ne_nil_iff_ne_zero.mpr hn
    have hlt : ∀ d ∈ (Nat.digits 10 n).reverse, d < 10 := by
      intro d hd
      exact Nat.digits_lt_base (by norm_num) (List.mem_reverse.mp hd)
    have hMne : (Nat.digits 10 n).reverse.map (fun d => 48 + d) ≠ [] := by
      simp [hne]
    cases hM : (Nat.digits 10 n).reverse.map (fun d => 48 + d) with
    | nil => exact absurd hM hMne
    | cons c cs =>
      have hstep : parseUint64Codes (c :: cs) = parseDecimalAux (c :: cs) 0 := rfl
      rw [hstep, ← hM, parseDecimalAux_map_encode _ hlt 0, foldl_reverse_ofDigits]
      simp [Nat.ofDigits_digits]

/-! ## Steam SDK constants used by DispatchEventTask.cpp

Values from the Steamworks SDK headers (steamclientpublic.h, steam_api.h). -/

def k_EPersonaChangeName : Nat := 0x0001

def k_EPersonaChangeStatus : Nat := 0x0002

def k_EPersonaChangeComeOnline : Nat := 0x0004

def k_EPersonaChangeGoneOffline : Nat := 0x0008

def k_EPersonaChangeAvatar : Nat := 0x0040

def k_EPersonaChangeRelationshipChanged : Nat := 0x0200

def k_EPersonaChangeNameFirstSet : Nat := 0x0400

def k_EPersonaChangeNickname : Nat := 0x1000

def k_EPersonaChangeSteamLevel : Nat := 0x2000

def k_EResultOK : Int := 1

inductive ELeaderboardSortMethod where
  | none
  | ascending
  | descending
deriving Repr, DecidableEq

inductive ELeaderboardDisplayType where
  | none
  | numeric
  | timeSeconds
  | timeMilliSeconds
deriving Repr, DecidableEq

/-! ## Dispatch event task states (DispatchEventTask.h / DispatchEventTask.cpp)

Each structure holds the member fields that the corresponding C++ task class
copies out of a Steam event struct at acquisition time. The fHadIOFailure
flag lives in the C++ base class BaseDispatchCallResultEventTask and is
inlined here into each call-result task state. -/

structure DispatchGameOverlayActivatedEventTaskS where
  fWasActivated : Bool
deriving Repr, DecidableEq

structure LeaderboardEntryS where
  m_steamIDUser : Nat
  m_nGlobalRank : Int
  m_nScore : Int
deriving Repr, DecidableEq

structure DispatchLeaderboardScoresDownloadedEventTaskS where
  fHadIOFailure : Bool
  fLeaderboardName : String
  fLeaderboardHandle : Nat
  fEntryCollection : List LeaderboardEntryS
deriving Repr, DecidableEq

structure DispatchLeaderboardFindResultEventTaskS where
  fHadIOFailure : Bool
  fLeaderboardName : String
  fIsError : Bool
  fLeaderboardHandle : Nat
  fEntryCount : Int
  fSortMethod : ELeaderboardSortMethod
  fDisplayType : ELeaderboardDisplayType
deriving Repr, DecidableEq

structure DispatchLeaderboardScoreUploadEventTaskS where
  fHadIOFailure : Bool
  fLeaderboardName : String
  fIsError : Bool
  fLeaderboardHandle : Nat
  fWasScoreChanged : Bool
  fCurrentGlobalRank : Int
  fPreviousGlobalRank : Int
deriving Repr, DecidableEq

structure DispatchMicrotransactionAuthorizationResponseEventTaskS where
  fWasAuthorized : Bool
  fOrderId : Nat
deriving Repr, DecidableEq

structure DispatchNumberOfCurrentPlayersEventTaskS where
  fHadIOFailure : Bool
  fIsError : Bool
  fPlayerCount : Int
deriving Repr, DecidableEq

structure DispatchPersonaStateChangedEventTaskS where
  fUserIntegerId : Nat
  fFlags : Nat
  fHasLargeAvatarChanged : Bool
deriving Repr, DecidableEq

structure DispatchUserAchievementIconFetchedEventTaskS where
  fAchievementName : String
  fIsUnlocked : Bool
  fImageHandle : Int
deriving Repr, DecidableEq

structure DispatchUserAchievementStoredEventTaskS where
  fAchievementName : String
  fIsGroup : Bool
  fCurrentProgress : Nat
  fMaxProgress : Nat
deriving Repr, DecidableEq

structure DispatchUserStatsReceivedEventTaskS where
  fUserIntegerId : Nat
  fSteamResultCode : Int
deriving Repr, DecidableEq

structure DispatchUserStatsStoredEventTaskS where
  fUserIntegerId : Nat
  fSteamResultCode : Int
deriving Repr, DecidableEq

structure DispatchUserStatsUnloadedEventTaskS where
  fUserIntegerId : Nat
deriving Repr, DecidableEq

/-! ## Lua event records pushed by PushLuaEventTableTo

Each builder takes a luaOk flag, modelling whether the lua_State pointer
passed to PushLuaEventTableTo is non-null; every C++ override returns false
immediately on a null pointer, modelled as none. Conditionally pushed
fields are Option fields of the record. Fields pushed with lua_pushstring
from a stringstream carry the decimal character codes. -/

structure OverlayStatusEvent where
  phase : String
deriving Repr, DecidableEq

/-- DispatchGameOverlayActivatedEventTask::PushLuaEventTableTo
(DispatchEventTask.cpp lines 152-165). -/
def DispatchGameOverlayActivatedEventTaskS.PushLuaEventTableTo
    (luaOk : Bool) (t : DispatchGameOverlayActivatedEventTaskS) :
    Option OverlayStatusEvent :=
  if !luaOk then
    none
  else
    some { phase := if t.fWasActivated then "shown" else "hidden" }

structure LuaLeaderboardEntry where
  userSteamId : List Nat
  globalRank : Int
  score : Int
deriving Repr, DecidableEq

structure LeaderboardEntriesEvent where
  isError : Bool
  leaderboardName : String
  leaderboardHandle : List Nat
  entries : List LuaLeaderboardEntry
deriving Repr, DecidableEq

/-- DispatchLeaderboardScoresDownloadedEventTask::PushLuaEventTableTo
(DispatchEventTask.cpp lines 227-281). The isError flag of this variant
comes from HadIOFailure alone. -/
def DispatchLeaderboardScoresDownloadedEventTaskS.PushLuaEventTableTo
    (luaOk : Bool) (t : DispatchLeaderboardScoresDownloadedEventTaskS) :
    Option LeaderboardEntriesEvent :=
  if !luaOk then
    none
  else
    some
      { isError := t.fHadIOFailure
        leaderboardName := t.fLeaderboardName
        leaderboardHandle := uint64ToDecimalCodes t.fLeaderboardHandle
        entries := t.fEntryCollection.map (fun e =>
          { userSteamId := uint64ToDecimalCodes e.m_steamIDUser
            globalRank := e.m_nGlobalRank
            score := e.m_nScore }) }

/-- The switch over fSortMethod (DispatchEventTask.cpp lines 376-391). -/
def sortMethodName : ELeaderboardSortMethod → String
  | .none => "none"
  | .ascending => "ascending"
  | .descending => "descending"

/-- The switch over fDisplayType (DispatchEventTask.cpp lines 395-414). -/
def displayTypeName : ELeaderboardDisplayType → String
  | .none => "none"
  | .numeric => "numeric"
  | .timeSeconds => "seconds"
  | .timeMilliSeconds => "milliseconds"

structure LeaderboardInfoDetails where
  leaderboardHandle : List Nat
  entryCount : Int
  sortMethod : String
  displayType : String
deriving Repr, DecidableEq

structure LeaderboardInfoEvent where
  isError : Bool
  leaderboardName : String
  details : Option LeaderboardInfoDetails
deriving Repr, DecidableEq

/-- DispatchLeaderboardFindResultEventTask::PushLuaEventTableTo
(DispatchEventTask.cpp lines 338-420): isError is the OR of the
in-payload failure flag and the call-result I/O-failure flag; the
handle, entry count, sort method and display type fields are pushed only
when isError is false. -/
def DispatchLeaderboardFindResultEventTaskS.PushLuaEventTableTo
    (luaOk : Bool) (t : DispatchLeaderboardFindResultEventTaskS) :
    Option LeaderboardInfoEvent :=
  if !luaOk then
    none
  else
    let isError := t.fIsError || t.fHadIOFailure
    some
      { isError := isError
        leaderboardName := t.fLeaderboardName
        details :=
          if isError then
            none
          else
            some
              { leaderboardHandle := uint64ToDecimalCodes t.fLeaderboardHandle
                entryCount := if t.fEntryCount > 0 then t.fEntryCount else 0
                sortMethod := sortMethodName t.fSortMethod
                displayType := displayTypeName t.fDisplayType } }

structure SetHighScoreEvent where
  isError : Bool
  leaderboardHandle : List Nat
  leaderboardName : String
  scoreChanged : Bool
  currentGlobalRank : Option Int
  previousGlobalRank : Option Int
deriving Repr, DecidableEq

/-- DispatchLeaderboardScoreUploadEventTask::PushLuaEventTableTo
(DispatchEventTask.cpp lines 477-526): isError is the OR of the
in-payload failure flag and the call-result I/O-failure flag; the rank
fields are pushed only when the score changed and the rank is positive. -/
def DispatchLeaderboardScoreUploadEventTaskS.PushLuaEventTableTo
    (luaOk : Bool) (t : DispatchLeaderboardScoreUploadEventTaskS) :
    Option SetHighScoreEvent :=
  if !luaOk then
    none
  else
    some
      { isError := t.fIsError || t.fHadIOFailure
        leaderboardHandle := uint64ToDecimalCodes t.fLeaderboardHandle
        leaderboardName := t.fLeaderboardName
        scoreChanged := t.fWasScoreChanged
        currentGlobalRank :=
          if t.fWasScoreChanged && (t.fCurrentGlobalRank > 0) then
            some t.fCurrentGlobalRank
          else
            none
        previousGlobalRank :=
          if t.fWasScoreChanged && (t.fPreviousGlobalRank > 0) then
            some t.fPreviousGlobalRank
          else
            none }

structure MicrotransactionAuthorizationEvent where
  authorized : Bool
  orderId : List Nat
deriving Repr, DecidableEq

/-- DispatchMicrotransactionAuthorizationResponseEventTask::PushLuaEventTableTo
(DispatchEventTask.cpp lines 557-580). -/
def DispatchMicrotransactionAuthorizationResponseEventTaskS.PushLuaEventTableTo
    (luaOk : Bool) (t : DispatchMicrotransactionAuthorizationResponseEventTaskS) :
    Option MicrotransactionAuthorizationEvent :=
  if !luaOk then
    none
  else
    some
      { authorized := t.fWasAuthorized
        orderId := uint64ToDecimalCodes t.fOrderId }

structure ActivePlayerCountEvent where
  isError : Bool
  count : Option Int
deriving Repr, DecidableEq

/-- DispatchNumberOfCurrentPlayersEventTask::PushLuaEventTableTo
(DispatchEventTask.cpp lines 610-634): isError is the OR of the
in-payload failure flag and the call-result I/O-failure flag; count is
pushed only when isError is false. -/
def DispatchNumberOfCurrentPlayersEventTaskS.PushLuaEventTableTo
    (luaOk : Bool) (t : DispatchNumberOfCurrentPlayersEventTaskS) :
    Option ActivePlayerCountEvent :=
  if !luaOk then
    none
  else
    let isError := t.fIsError || t.fHadIOFailure
    some
      { isError := isError
        count := if isError then none else some t.fPlayerCount }

structure UserInfoUpdateEvent where
  userSteamId : List Nat
  nameChanged : Bool
  statusChanged : Bool
  smallAvatarChanged : Bool
  mediumAvatarChanged : Bool
  largeAvatarChanged : Bool
  relationshipChanged : Bool
  facebookInfoChanged : Bool
  nicknameChanged : Bool
  steamLevelChanged : Bool
deriving Repr, DecidableEq

/-- DispatchPersonaStateChangedEventTask::PushLuaEventTableTo
(DispatchEventTask.cpp lines 705-765): the user ID is pushed as a decimal
string; the booleans are derived from the fFlags bitmask, except the
large-avatar flag which is a separate field, and the facebook flag which
the code hardcodes to false. -/
def DispatchPersonaStateChangedEventTaskS.PushLuaEventTableTo
    (luaOk : Bool) (t : DispatchPersonaStateChangedEventTaskS) :
    Option UserInfoUpdateEvent :=
  if !luaOk then
    none
  else
    some
      { userSteamId := uint64ToDecimalCodes t.fUserIntegerId
        nameChanged :=
          t.fFlags &&& (k_EPersonaChangeName ||| k_EPersonaChangeNameFirstSet) != 0
        statusChanged :=
          t.fFlags &&&
            (k_EPersonaChangeStatus ||| k_EPersonaChangeComeOnline |||
              k_EPersonaChangeGoneOffline) != 0
        smallAvatarChanged := t.fFlags &&& k_EPersonaChangeAvatar != 0
        mediumAvatarChanged := t.fFlags &&& k_EPersonaChangeAvatar != 0
        largeAvatarChanged := t.fHasLargeAvatarChanged
        relationshipChanged := t.fFlags &&& k_EPersonaChangeRelationshipChanged != 0
        facebookInfoChanged := false
        nicknameChanged := t.fFlags &&& k_EPersonaChangeNickname != 0
        steamLevelChanged := t.fFlags &&& k_EPersonaChangeSteamLevel != 0 }

structure LuaImageInfoTable where
  imageHandle : Int
  pixelWidth : Nat
  pixelHeight : Nat
deriving Repr, DecidableEq

/-- SteamImageInfo::PushToLua (SteamImageInfo.cpp lines 60-88) with a
non-null Lua state: pushes a table of the three fields when valid, nil
(none) otherwise. -/
def SteamImageInfo.PushToLua (info : SteamImageInfo) : Option LuaImageInfoTable :=
  if info.IsValid then
    some
      { imageHandle := info.fImageHandle
        pixelWidth := info.fPixelWidth
        pixelHeight := info.fPixelHeight }
  else
    none

structure AchievementImageUpdateEvent where
  achievementName : String
  imageInfo : Option LuaImageInfoTable
  unlocked : Bool
deriving Repr, DecidableEq

/-- DispatchUserAchievementIconFetchedEventTask::PushLuaEventTableTo
(DispatchEventTask.cpp lines 797-833): the stored image handle is looked
up through SteamUtils at push time; if the resulting image info is not
valid the method returns false (none) and no event record is produced.
The utils argument models the SteamUtils() accessor at push time. -/
def DispatchUserAchievementIconFetchedEventTaskS.PushLuaEventTableTo
    (luaOk : Bool) (utils : Option SteamUtilsEnv)
    (t : DispatchUserAchievementIconFetchedEventTaskS) :
    Option AchievementImageUpdateEvent :=
  if !luaOk then
    none
  else
    let imageInfo := SteamImageInfo.FromImageHandle utils t.fImageHandle
    if imageInfo.IsNotValid then
      none
    else
      some
        { achievementName := t.fAchievementName
          imageInfo := imageInfo.PushToLua
          unlocked := t.fIsUnlocked }

structure AchievementInfoUpdateEvent where
  achievementName : String
  isGroup : Bool
  currentProgress : Option Nat
  maxProgress : Option Nat
deriving Repr, DecidableEq

/-- DispatchUserAchievementStoredEventTask::PushLuaEventTableTo
(DispatchEventTask.cpp lines 866-896): the progress fields are pushed
only when fMaxProgress is positive. -/
def DispatchUserAchievementStoredEventTaskS.PushLuaEventTableTo
    (luaOk : Bool) (t : DispatchUserAchievementStoredEventTaskS) :
    Option AchievementInfoUpdateEvent :=
  if !luaOk then
    none
  else
    some
      { achievementName := t.fAchievementName
        isGroup := t.fIsGroup
        currentProgress := if t.fMaxProgress > 0 then some t.fCurrentProgress else none
        maxProgress := if t.fMaxProgress > 0 then some t.fMaxProgress else none }

structure UserProgressEvent where
  userSteamId : List Nat
  isError : Bool
  resultCode : Int
deriving Repr, DecidableEq

/-- DispatchUserStatsReceivedEventTask::PushLuaEventTableTo
(DispatchEventTask.cpp lines 926-953). -/
def DispatchUserStatsReceivedEventTaskS.PushLuaEventTableTo
    (luaOk : Bool) (t : DispatchUserStatsReceivedEventTaskS) :
    Option UserProgressEvent :=
  if !luaOk then
    none
  else
    some
      { userSteamId := uint64ToDecimalCodes t.fUserIntegerId
        isError := t.fSteamResultCode != k_EResultOK
        resultCode := t.fSteamResultCode }

/-- DispatchUserStatsStoredEventTask::PushLuaEventTableTo
(DispatchEventTask.cpp lines 991-1018). -/
def DispatchUserStatsStoredEventTaskS.PushLuaEventTableTo
    (luaOk : Bool) (t : DispatchUserStatsStoredEventTaskS) :
    Option UserProgressEvent :=
  if !luaOk then
    none
  else
    some
      { userSteamId := uint64ToDecimalCodes t.fUserIntegerId
        isError := t.fSteamResultCode != k_EResultOK
        resultCode := t.fSteamResultCode }

structure UserProgressUnloadEvent where
  userSteamId : List Nat
deriving Repr, DecidableEq

/-- DispatchUserStatsUnloadedEventTask::PushLuaEventTableTo
(DispatchEventTask.cpp lines 1046-1065). -/
def DispatchUserStatsUnloadedEventTaskS.PushLuaEventTableTo
    (luaOk : Bool) (t : DispatchUserStatsUnloadedEventTaskS) :
    Option UserProgressUnloadEvent :=
  if !luaOk then
    none
  else
    some { userSteamId := uint64ToDecimalCodes t.fUserIntegerId }

/-! ## BaseDispatchEventTask::Execute and the RuntimeContext
(DispatchEventTask.cpp lines 39-70, RuntimeContext.cpp)

Execute checks, in order: the Lua event dispatcher pointer, the Lua state
obtained from it, the result of PushLuaEventTableTo, and finally the
result of DispatchEventWithoutResult. For the queue-drain model the four
checks are abstracted into four boolean fields of the task state; which
concrete record a given task pushes is covered by the builders above. -/

structure BaseDispatchEventTaskS where
  hasLuaEventDispatcher : Bool
  dispatcherHasLuaState : Bool
  pushSucceeded : Bool
  dispatchSucceeded : Bool
deriving Repr, DecidableEq

/-- Translation of BaseDispatchEventTask::Execute (DispatchEventTask.cpp
lines 39-70): early false returns for a null dispatcher, a null Lua state
and a failed event-table push; otherwise the dispatch result. -/
def BaseDispatchEventTaskS.Execute (t : BaseDispatchEventTaskS) : Bool :=
  if !t.hasLuaEventDispatcher then
    false
  else if !t.dispatcherHasLuaState then
    false
  else if !t.pushSucceeded then
    false
  else
    t.dispatchSucceeded

/-- State of one RuntimeContext instance (RuntimeContext.cpp): the queue of
pending dispatch tasks (shared_ptr elements may be null, hence Option) and
the overlay render-request flag. The constructor initializes
fWasRenderRequested to false and the queue empty. -/
structure RuntimeContextS where
  fDispatchEventTaskQueue : List (Option BaseDispatchEventTaskS)
  fWasRenderRequested : Bool
deriving Repr, DecidableEq

def RuntimeContextS.initial : RuntimeContextS :=
  { fDispatchEventTaskQueue := [], fWasRenderRequested := false }

/-- The drain loop of RuntimeContext::OnCoronaEnterFrame (RuntimeContext.cpp
lines 527-535): pop the front task while the queue is non-empty; a null
pointer is skipped; a non-null task has Execute invoked, and the loop
continues regardless of the Execute result. The returned list pairs each
executed task with its Execute result, in the order of execution. -/
def drainDispatchEventTaskQueue :
    List (Option BaseDispatchEventTaskS) → List (BaseDispatchEventTaskS × Bool)
  | [] => []
  | none :: rest => drainDispatchEventTaskQueue rest
  | some t :: rest => (t, t.Execute) :: drainDispatchEventTaskQueue rest

/-- Translation of RuntimeContext::OnCoronaEnterFrame (RuntimeContext.cpp
lines 515-571). Inputs beyond the context state:
- luaOk models the null check on the incoming lua_State pointer;
- pumped is the list of tasks the SteamAPI_RunCallbacks event handlers
  append to the queue during the callback pump;
- overlayNeedsPresent models
  steamUtilsPointer and steamUtilsPointer->BOverlayNeedsPresent(),
  false in particular when SteamUtils() is null.
Returns the new state, the (task, Execute result) pairs delivered this
tick, and whether the frame-redraw branch was entered. -/
def RuntimeContextS.OnCoronaEnterFrame (st : RuntimeContextS) (luaOk : Bool)
    (pumped : List (Option BaseDispatchEventTaskS)) (overlayNeedsPresent : Bool) :
    RuntimeContextS × List (BaseDispatchEventTaskS × Bool) × Bool :=
  if !luaOk then
    (st, [], false)
  else
    let queueAfterPump := st.fDispatchEventTaskQueue ++ pumped
    let executed := drainDispatchEventTaskQueue queueAfterPump
    let isSteamShowingOverlay := overlayNeedsPresent
    let forcedRedraw := isSteamShowingOverlay || st.fWasRenderRequested
    ({ fDispatchEventTaskQueue := []
       fWasRenderRequested := isSteamShowingOverlay },
      executed, forcedRedraw)

/-- Iterates OnCoronaEnterFrame over a sequence of per-tick overlay
states (with a valid Lua state and nothing new pumped each tick) and
collects the per-tick redraw-forcing signal. -/
def runOverlayTicks (st : RuntimeContextS) : List Bool → List Bool
  | [] => []
  | p :: ps =>
    let r := st.OnCoronaEnterFrame true [] p
    r.2.2 :: runOverlayTicks r.1 ps

/-! ## Leaderboard handle cache (RuntimeContext.cpp lines 413-424) -/

/-- The std::map find over the name-to-handle cache: first matching key. -/
def findLeaderboardHandle : List (String × Nat) → String → Option Nat
  | [], _ => none
  | (k, v) :: rest, name => if k = name then some v else findLeaderboardHandle rest name

/-- Translation of RuntimeContext::GetCachedLeaderboardHandleByName
(RuntimeContext.cpp lines 413-424). The name pointer may be null (none).
The method is const in C++; its translation returns, besides the handle,
the (unchanged) cache and the list of SDK requests issued (none: the body
contains no SDK call). -/
def GetCachedLeaderboardHandleByName
    (cache : List (String × Nat)) (name : Option String) :
    Nat × List (String × Nat) × List String :=
  match name with
  | none => (0, cache, [])
  | some n =>
    match findLeaderboardHandle cache n with
    | some handle => (handle, cache, [])
    | none => (0, cache, [])

/-! ## Global Steam event handling with a game ID filter
(RuntimeContext.cpp lines 573-656) -/

/-- CGameID built from a uint32 AppId (steamclientpublic.h): the app ID
occupies the low 24 bits, the type and mod fields are zero. -/
def CGameIDFromAppId (appId : Nat) : Nat := appId % 2 ^ 24

/-- CGameID built from a raw uint64 game ID value. -/
def CGameIDFromUint64 (gameId : Nat) : Nat := gameId % 2 ^ 64

/-- Translation of RuntimeContext::OnHandleGlobalSteamEvent
(RuntimeContext.cpp lines 573-632), restricted to its queue effect: a
null event pointer is ignored; otherwise a task is created from the event
data and appended to the pending dispatch queue. -/
def RuntimeContextS.OnHandleGlobalSteamEvent {α : Type} (st : RuntimeContextS)
    (eventData : Option α) (mkTask : α → BaseDispatchEventTaskS) : RuntimeContextS :=
  match eventData with
  | none => st
  | some e =>
    { st with
      fDispatchEventTaskQueue := st.fDispatchEventTaskQueue ++ [some (mkTask e)] }

/-- Translation of RuntimeContext::OnHandleGlobalSteamEventWithGameId
(RuntimeContext.cpp lines 634-656): a null event pointer is ignored; when
the SteamUtils interface is available (utilsAppId = some appId) and the
CGameID of the running app differs from the CGameID of the event, the
event is dropped; otherwise it is handled by OnHandleGlobalSteamEvent. -/
def RuntimeContextS.OnHandleGlobalSteamEventWithGameId {α : Type}
    (st : RuntimeContextS) (utilsAppId : Option Nat) (eventData : Option α)
    (gameIdOf : α → Nat) (mkTask : α → BaseDispatchEventTaskS) : RuntimeContextS :=
  match eventData with
  | none => st
  | some e =>
    match utilsAppId with
    | some appId =>
      if CGameIDFromAppId appId ≠ CGameIDFromUint64 (gameIdOf e) then
        st
      else
        st.OnHandleGlobalSteamEvent (some e) mkTask
    | none => st.OnHandleGlobalSteamEvent (some e) mkTask

/-- The UserAchievementStored_t style event payloads carrying a game ID,
reduced to the field the filter reads. -/
structure GlobalSteamEventWithGameId where
  m_nGameID : Nat
deriving Repr, DecidableEq

/-! ## The plugin Lua function table (part_003, luaopen_plugin_steamworks)

One constructor per entry registered in the luaFunctions table
(part_003 lines 3225-3254). -/

inductive EntryPoint where
  | getAchievementImageInfo
  | getAchievementInfo
  | getAchievementNames
  | getUserImageInfo
  | getUserInfo
  | getUserStatValue
  | newImageRect
  | newTexture
  | requestActivePlayerCount
  | requestLeaderboardEntries
  | requestLeaderboardInfo
  | requestSetHighScore
  | requestUserProgress
  | resetUserProgress
  | resetUserStats
  | setAchievementProgress
  | setAchievementUnlocked
  | setNotificationPosition
  | setUserStatValues
  | showGameOverlay
  | showStoreOverlay
  | showUserOverlay
  | showWebOverlay
  | isDlcInstalled
  | addEventListener
  | removeEventListener
deriving Repr, DecidableEq

/-- The value an entry point returns to its Lua caller. noValues models a
C function returning 0 results, which a Lua caller observes as nil. -/
inductive LuaRet where
  | boolFalse
  | luaNil
  | emptyTable
  | noValues
deriving Repr, DecidableEq

/-- What each entry point returns when the Steam SDK accessor it consults
(SteamUserStats, SteamFriends, SteamUser, SteamUtils, SteamApps) yields a
null interface pointer, read from the null-interface branch of each
function in part_003 (valid arguments otherwise assumed):
- getAchievementImageInfo line 424, getAchievementInfo line 504,
  getUserImageInfo line 652, getUserInfo line 724,
  getUserStatValue line 996: lua_pushnil;
- newImageRect lines 1135-1140 and newTexture lines 1249-1253: the
  FromImageHandle lookup yields an invalid info with a null SteamUtils,
  so nil is returned;
- requestActivePlayerCount line 1290, requestLeaderboardEntries
  line 1337, requestLeaderboardInfo line 1744, requestSetHighScore
  line 1844, requestUserProgress line 2151, resetUserProgress line 2191,
  resetUserStats line 2211, setAchievementProgress line 2300,
  setAchievementUnlocked line 2339, setNotificationPosition line 2644,
  setUserStatValues line 2714, showGameOverlay line 2380,
  showStoreOverlay line 2426, showUserOverlay line 2502,
  showWebOverlay line 2597, isDlcInstalled line 2868:
  lua_pushboolean(0);
- getAchievementNames lines 2926-2930: lua_createtable(0, 0), an empty
  array;
- addEventListener and removeEventListener never consult an SDK
  accessor and return 0 results. -/
def nullSdkReturn : EntryPoint → LuaRet
  | .getAchievementImageInfo => .luaNil
  | .getAchievementInfo => .luaNil
  | .getAchievementNames => .emptyTable
  | .getUserImageInfo => .luaNil
  | .getUserInfo => .luaNil
  | .getUserStatValue => .luaNil
  | .newImageRect => .luaNil
  | .newTexture => .luaNil
  | .requestActivePlayerCount => .boolFalse
  | .requestLeaderboardEntries => .boolFalse
  | .requestLeaderboardInfo => .boolFalse
  | .requestSetHighScore => .boolFalse
  | .requestUserProgress => .boolFalse
  | .resetUserProgress => .boolFalse
  | .resetUserStats => .boolFalse
  | .setAchievementProgress => .boolFalse
  | .setAchievementUnlocked => .boolFalse
  | .setNotificationPosition => .boolFalse
  | .setUserStatValues => .boolFalse
  | .showGameOverlay => .boolFalse
  | .showStoreOverlay => .boolFalse
  | .showUserOverlay => .boolFalse
  | .showWebOverlay => .boolFalse
  | .isDlcInstalled => .boolFalse
  | .addEventListener => .noValues
  | .removeEventListener => .noValues

/-- Number of dispatch tasks an entry point enqueues when the SDK accessor
it consults is null: every function returns before reaching any
AddEventHandlerFor call or queue push, and the two listener-registry
functions never enqueue tasks at all, so the count is 0 throughout. -/
def nullSdkEnqueueCount : EntryPoint → Nat := fun _ => 0

/-! ## setUserStatValues (part_003 lines 2693-2852) -/

/-- Translation of the SteamStatValueType registry (SteamStatValueType.cpp):
the three named singletons and the unknown default. -/
inductive SteamStatValueTypeS where
  | kUnknown
  | kInteger
  | kFloat
  | kAverageRate
deriving Repr, DecidableEq

/-- Translation of SteamStatValueType::FromCoronaStringId
(SteamStatValueType.cpp lines 56-67) over the registered string IDs. -/
def SteamStatValueTypeS.FromCoronaStringId (stringId : String) : SteamStatValueTypeS :=
  if stringId = "int" then .kInteger
  else if stringId = "float" then .kFloat
  else if stringId = "averageRate" then .kAverageRate
  else .kUnknown

/-- One element of the Lua array passed to setUserStatValues. A none field
models the field being absent or of the wrong Lua type. Lua numbers are
modelled as rationals. -/
structure LuaStatEntry where
  isTable : Bool
  statName : Option String
  typeString : Option String
  value : Option ℚ
  sessionTimeLength : Option ℚ
deriving Repr, DecidableEq

/-- The SDK write an array element results in. -/
inductive SdkStatCall where
  | setIntStat (statName : String) (value : Int)
  | setFloatStat (statName : String) (value : ℚ)
  | updateAvgRateStat (statName : String) (value : ℚ) (sessionTimeLength : ℚ)
deriving Repr, DecidableEq

/-- std::lround: round to nearest, halfway cases away from zero. -/
def lround (q : ℚ) : Int :=
  if q ≥ 0 then ⌊q + 1 / 2⌋ else -⌊-q + 1 / 2⌋

/-- The clamp of the rounded long value into the int32 range
(part_003 lines 2822-2830). -/
def clampToInt32 (x : Int) : Int :=
  if x > 2147483647 then 2147483647
  else if x < -2147483648 then -2147483648
  else x

/-- The per-element body of the OnSetUserStatValues loop
(part_003 lines 2721-2841): each validation failure is a continue
(none); a valid element yields the SDK call the code performs. -/
def processStatEntry (e : LuaStatEntry) : Option SdkStatCall :=
  if !e.isTable then
    none
  else
    match e.statName with
    | none => none
    | some statName =>
      if statName = "" then
        none
      else
        let valueType :=
          match e.typeString with
          | some s => SteamStatValueTypeS.FromCoronaStringId s
          | none => SteamStatValueTypeS.kUnknown
        if valueType = SteamStatValueTypeS.kUnknown then
          none
        else
          match e.value with
          | none => none
          | some floatValue =>
            match valueType with
            | .kFloat => some (.setFloatStat statName floatValue)
            | .kInteger =>
              some (.setIntStat statName (clampToInt32 (lround floatValue)))
            | .kAverageRate =>
              match e.sessionTimeLength with
              | none => none
              | some sessionTimeLength =>
                if sessionTimeLength ≤ 0 then
                  none
                else
                  some (.updateAvgRateStat statName floatValue sessionTimeLength)
            | .kUnknown => none

/-- The ISteamUserStats operations OnSetUserStatValues can invoke, as
boolean-result oracles. -/
structure UserStatsEnv where
  setIntStat : String → Int → Bool
  setFloatStat : String → ℚ → Bool
  updateAvgRateStat : String → ℚ → ℚ → Bool

def UserStatsEnv.succeeds (env : UserStatsEnv) : SdkStatCall → Bool
  | .setIntStat n v => env.setIntStat n v
  | .setFloatStat n v => env.setFloatStat n v
  | .updateAvgRateStat n v s => env.updateAvgRateStat n v s

/-- The traversal loop of OnSetUserStatValues (part_003 lines 2718-2851):
walks the array elements in order, skipping invalid ones, issuing one SDK
write per valid element, and accumulating hasSetStat. Returns the list of
SDK calls issued (in order) and the final hasSetStat flag, which is also
the boolean returned to Lua. -/
def OnSetUserStatValuesLoop (env : UserStatsEnv) :
    List LuaStatEntry → List SdkStatCall × Bool
  | [] => ([], false)
  | e :: rest =>
    match processStatEntry e with
    | none => OnSetUserStatValuesLoop env rest
    | some c =>
      let r := OnSetUserStatValuesLoop env rest
      (c :: r.1, env.succeeds c || r.2)

/-! ## Helper lemmas -/

lemma drainDispatchEventTaskQueue_eq (q : List (Option BaseDispatchEventTaskS)) :
    drainDispatchEventTaskQueue q =
      (q.filterMap id).map (fun t => (t, t.Execute)) := by
  induction q with
  | nil => rfl
  | cons o rest ih =>
    cases o with
    | none => simpa [drainDispatchEventTaskQueue] using ih
    | some t => simpa [drainDispatchEventTaskQueue] using ih

lemma runOverlayTicks_eq (ps : List Bool) :
    ∀ (q : List (Option BaseDispatchEventTaskS)) (b : Bool),
      runOverlayTicks ⟨q, b⟩ ps = List.zipWith (fun x y => x || y) ps (b :: ps) := by
  induction ps with
  | nil => intro q b; rfl
  | cons p ps ih =>
    intro q b
    simp only [runOverlayTicks, RuntimeContextS.OnCoronaEnterFrame, Bool.not_true,
      List.zipWith_cons_cons]
    exact congrArg (List.cons (p || b)) (ih [] p)

lemma onSetUserStatValuesLoop_fst (env : UserStatsEnv) (entries : List LuaStatEntry) :
    (OnSetUserStatValuesLoop env entries).1 = entries.filterMap processStatEntry := by
  induction entries with
  | nil => rfl
  | cons e rest ih =>
    cases h : processStatEntry e with
    | none => simp [OnSetUserStatValuesLoop, h, ih]
    | some c => simp [OnSetUserStatValuesLoop, h, ih]

lemma onSetUserStatValuesLoop_snd (env : UserStatsEnv) (entries : List LuaStatEntry) :
    (OnSetUserStatValuesLoop env entries).2 =
      (entries.filterMap processStatEntry).any env.succeeds := by
  induction entries with
  | nil => rfl
  | cons e rest ih =>
    cases h : processStatEntry e with
    | none => simp [OnSetUserStatValuesLoop, h, ih]
    | some c => simp [OnSetUserStatValuesLoop, h, ih]

/-! ## Claim theorems -/

/-- C1: On every poll tick with a valid Lua state, after the callback pump
has appended its tasks, the drain removes every task from the pending
dispatch queue and delivers the non-null ones in strict first-in-first-out
arrival order (the executed list is exactly the queue content, in order);
the queue is empty when the drain ends; and Execute returns false exactly
when the dispatcher is null, the Lua state is null, the event-table push
fails, or the final dispatch fails, without any effect on the delivery of
the remaining queued tasks (every queued task still appears in the
executed list). -/
theorem claim1_poll_drain_fifo (st : RuntimeContextS)
    (pumped : List (Option BaseDispatchEventTaskS)) (present : Bool) :
    ((st.OnCoronaEnterFrame true pumped present).1.fDispatchEventTaskQueue = [])
    ∧ ((st.OnCoronaEnterFrame true pumped present).2.1 =
        ((st.fDispatchEventTaskQueue ++ pumped).filterMap id).map
          (fun t => (t, t.Execute)))
    ∧ (∀ t : BaseDispatchEventTaskS,
        t.Execute = true ↔
          (t.hasLuaEventDispatcher = true ∧ t.dispatcherHasLuaState = true
            ∧ t.pushSucceeded = true ∧ t.dispatchSucceeded = true)) := by
  refine ⟨rfl, ?_, ?_⟩
  · simp only [RuntimeContextS.OnCoronaEnterFrame, Bool.not_true]
    exact drainDispatchEventTaskQueue_eq _
  · intro t
    rcases t with ⟨a, b, c, d⟩
    cases a <;> cases b <;> cases c <;> cases d <;>
      simp [BaseDispatchEventTaskS.Execute]

/-- C2 counterexample: with a null SDK interface, the getAchievementNames
entry point returns an empty Lua array, which is neither the boolean
false nor nil; so the claim that every entry point returns false or nil
fails at this entry point. -/
theorem claim2_counterexample_getAchievementNames :
    nullSdkReturn EntryPoint.getAchievementNames = LuaRet.emptyTable
    ∧ LuaRet.emptyTable ≠ LuaRet.boolFalse
    ∧ LuaRet.emptyTable ≠ LuaRet.luaNil
    ∧ LuaRet.emptyTable ≠ LuaRet.noValues := by
  decide

/-- C2 (amended): for every entry point in the plugin function table, if
the consulted SDK accessor returns a null interface pointer, the call
returns a boolean false, nil, or no values (observed as nil by the Lua
caller), except getAchievementNames which returns an empty array; in all
cases the call enqueues no dispatch task. -/
theorem claim2_null_sdk_returns (ep : EntryPoint) :
    ((nullSdkReturn ep = LuaRet.boolFalse ∨ nullSdkReturn ep = LuaRet.luaNil
        ∨ nullSdkReturn ep = LuaRet.noValues)
      ∨ (ep = EntryPoint.getAchievementNames
          ∧ nullSdkReturn ep = LuaRet.emptyTable))
    ∧ nullSdkEnqueueCount ep = 0 := by
  cases ep <;> simp [nullSdkReturn, nullSdkEnqueueCount]

/-- C3: iterating the poll step from a freshly constructed runtime context
(render-request flag false), the host is signalled to force a redraw on a
tick if and only if the overlay needs presenting on that tick or it did
on the immediately preceding tick; consequently the redraw signal
persists for exactly one extra tick after the overlay stops needing
presentation. -/
theorem claim3_overlay_redraw_one_extra_tick (ps : List Bool) :
    runOverlayTicks RuntimeContextS.initial ps =
      List.zipWith (fun x y => x || y) ps (false :: ps) :=
  runOverlayTicks_eq ps [] false

/-- C4: GetCachedLeaderboardHandleByName returns the handle previously
cached for the given name when one exists and the sentinel zero otherwise
(including for a null name); the cache is returned unchanged and no SDK
request is issued. -/
theorem claim4_cached_leaderboard_handle :
    (∀ (cache : List (String × Nat)) (n : String) (h : Nat),
        findLeaderboardHandle cache n = some h →
          GetCachedLeaderboardHandleByName cache (some n) = (h, cache, []))
    ∧ (∀ (cache : List (String × Nat)) (n : String),
        findLeaderboardHandle cache n = none →
          GetCachedLeaderboardHandleByName cache (some n) = (0, cache, []))
    ∧ (∀ cache : List (String × Nat),
        GetCachedLeaderboardHandleByName cache none = (0, cache, []))
    ∧ (∀ (cache : List (String × Nat)) (name : Option String),
        (GetCachedLeaderboardHandleByName cache name).2.1 = cache
          ∧ (GetCachedLeaderboardHandleByName cache name).2.2 = []) := by
  refine ⟨?_, ?_, ?_, ?_⟩
  · intro cache n h hfind
    simp [GetCachedLeaderboardHandleByName, hfind]
  · intro cache n hfind
    simp [GetCachedLeaderboardHandleByName, hfind]
  · intro cache
    rfl
  · intro cache name
    cases name with
    | none => exact ⟨rfl, rfl⟩
    | some n =>
      cases hfind : findLeaderboardHandle cache n <;>
        simp [GetCachedLeaderboardHandleByName, hfind]

/-- C4 witness: the cached-handle lookup evaluated on a concrete cache,
for a hit, a miss and a null name. -/
theorem claim4_witness :
    GetCachedLeaderboardHandleByName [("Feet Traveled", 42)] (some "Feet Traveled")
        = (42, [("Feet Traveled", 42)], [])
    ∧ GetCachedLeaderboardHandleByName [("Feet Traveled", 42)] (some "Distance")
        = (0, [("Feet Traveled", 42)], [])
    ∧ GetCachedLeaderboardHandleByName [("Feet Traveled", 42)] none
        = (0, [("Feet Traveled", 42)], []) :=
  ⟨claim4_cached_leaderboard_handle.1 [("Feet Traveled", 42)] "Feet Traveled" 42
      (by decide),
    claim4_cached_leaderboard_handle.2.1 [("Feet Traveled", 42)] "Distance"
      (by decide),
    claim4_cached_leaderboard_handle.2.2.1 [("Feet Traveled", 42)]⟩

/-- C5: IsValid returns true if and only if the image handle is neither 0
nor -1 and both pixel dimensions are strictly positive; IsNotValid is the
exact boolean negation of IsValid. -/
theorem claim5_image_info_valid_iff (info : SteamImageInfo) :
    (info.IsValid = true ↔
      (info.fImageHandle ≠ 0 ∧ info.fImageHandle ≠ -1
        ∧ 0 < info.fPixelWidth ∧ 0 < info.fPixelHeight))
    ∧ info.IsNotValid = !info.IsValid := by
  refine ⟨?_, rfl⟩
  rcases info with ⟨ih, iw, iht⟩
  by_cases e0 : ih = 0 <;> by_cases e1 : ih = -1 <;>
    by_cases ew : 0 < iw <;> by_cases eh : 0 < iht <;>
    simp [SteamImageInfo.IsValid, e0, e1, ew, eh]

/-- C6: serializing any 64-bit value as its decimal character string (as
the event-record serializers do with a classic-locale stringstream) and
parsing that string back with the accessors string-to-uint64 conversion
yields the identical value; and the persona-state-changed event record
carries the user ID precisely as that decimal string, never as a native
number. -/
theorem claim6_steam_id_decimal_roundtrip :
    (∀ n : Nat, n < 2 ^ 64 →
      parseUint64Codes (uint64ToDecimalCodes n) = some n)
    ∧ (∀ t : DispatchPersonaStateChangedEventTaskS,
        (DispatchPersonaStateChangedEventTaskS.PushLuaEventTableTo true t).map
            UserInfoUpdateEvent.userSteamId
          = some (uint64ToDecimalCodes t.fUserIntegerId)) := by
  constructor
  · intro n _
    exact parse_uint64ToDecimalCodes n
  · intro t
    rfl

/-- C6 witness: the round trip evaluated at a concrete 64-bit Steam ID. -/
theorem claim6_witness :
    (76561197960287930 : Nat) < 2 ^ 64
    ∧ parseUint64Codes (uint64ToDecimalCodes 76561197960287930)
        = some 76561197960287930 :=
  ⟨by norm_num,
    claim6_steam_id_decimal_roundtrip.1 76561197960287930 (by norm_num)⟩

/-- C7: for the three call-result event tasks (leaderboard find,
leaderboard score upload, active player count), the isError flag of the
serialized event record equals the OR of the in-payload business failure
flag and the call-result I/O-failure flag, hence it is true if and only
if one of the two failure flags is set; the record exposes only this
single combined flag. -/
theorem claim7_call_result_isError
    (tf : DispatchLeaderboardFindResultEventTaskS)
    (tu : DispatchLeaderboardScoreUploadEventTaskS)
    (tp : DispatchNumberOfCurrentPlayersEventTaskS) :
    ((DispatchLeaderboardFindResultEventTaskS.PushLuaEventTableTo true tf).map
        LeaderboardInfoEvent.isError = some (tf.fIsError || tf.fHadIOFailure)
      ∧ ((tf.fIsError || tf.fHadIOFailure) = true ↔
          (tf.fIsError = true ∨ tf.fHadIOFailure = true)))
    ∧ ((DispatchLeaderboardScoreUploadEventTaskS.PushLuaEventTableTo true tu).map
        SetHighScoreEvent.isError = some (tu.fIsError || tu.fHadIOFailure)
      ∧ ((tu.fIsError || tu.fHadIOFailure) = true ↔
          (tu.fIsError = true ∨ tu.fHadIOFailure = true)))
    ∧ ((DispatchNumberOfCurrentPlayersEventTaskS.PushLuaEventTableTo true tp).map
        ActivePlayerCountEvent.isError = some (tp.fIsError || tp.fHadIOFailure)
      ∧ ((tp.fIsError || tp.fHadIOFailure) = true ↔
          (tp.fIsError = true ∨ tp.fHadIOFailure = true))) :=
  ⟨⟨rfl, (Bool.or_eq_true _ _).to_iff⟩, ⟨rfl, (Bool.or_eq_true _ _).to_iff⟩,
    ⟨rfl, (Bool.or_eq_true _ _).to_iff⟩⟩

/-- C8 counterexample: serializing an achievement-icon-fetched task after
the SDK has evicted the image (GetImageSize fails for every handle)
produces no event record at all: PushLuaEventTableTo returns false
(none), instead of producing a record with the image fields omitted. -/
theorem claim8_counterexample_icon_record_not_produced :
    DispatchUserAchievementIconFetchedEventTaskS.PushLuaEventTableTo true
        (some ⟨fun _ => none⟩) ⟨"ACH_WIN_ONE_GAME", true, 7⟩ = none :=
  rfl

/-- C8 (amended): every dispatch event task variant except the
achievement-icon-fetched one produces its event record whenever given a
valid Lua state, however long after acquisition, omitting unavailable
fields; the achievement-icon-fetched variant instead produces its record
exactly when the image info for its stored handle is still valid at
serialization time, and otherwise fails to produce the record (returns
false), so that event is skipped rather than degraded. -/
theorem claim8_serialize_graceful_degradation :
    (∀ (utils : Option SteamUtilsEnv)
        (t : DispatchUserAchievementIconFetchedEventTaskS),
      (DispatchUserAchievementIconFetchedEventTaskS.PushLuaEventTableTo
          true utils t).isSome
        = (SteamImageInfo.FromImageHandle utils t.fImageHandle).IsValid)
    ∧ (∀ t, (DispatchGameOverlayActivatedEventTaskS.PushLuaEventTableTo
        true t).isSome = true)
    ∧ (∀ t, (DispatchLeaderboardScoresDownloadedEventTaskS.PushLuaEventTableTo
        true t).isSome = true)
    ∧ (∀ t, (DispatchLeaderboardFindResultEventTaskS.PushLuaEventTableTo
        true t).isSome = true)
    ∧ (∀ t, (DispatchLeaderboardScoreUploadEventTaskS.PushLuaEventTableTo
        true t).isSome = true)
    ∧ (∀ t, (DispatchMicrotransactionAuthorizationResponseEventTaskS.PushLuaEventTableTo
        true t).isSome = true)
    ∧ (∀ t, (DispatchNumberOfCurrentPlayersEventTaskS.PushLuaEventTableTo
        true t).isSome = true)
    ∧ (∀ t, (DispatchPersonaStateChangedEventTaskS.PushLuaEventTableTo
        true t).isSome = true)
    ∧ (∀ t, (DispatchUserAchievementStoredEventTaskS.PushLuaEventTableTo
        true t).isSome = true)
    ∧ (∀ t, (DispatchUserStatsReceivedEventTaskS.PushLuaEventTableTo
        true t).isSome = true)
    ∧ (∀ t, (DispatchUserStatsStoredEventTaskS.PushLuaEventTableTo
        true t).isSome = true)
    ∧ (∀ t, (DispatchUserStatsUnloadedEventTaskS.PushLuaEventTableTo
        true t).isSome = true) := by
  refine ⟨?_, fun t => rfl, fun t => rfl, fun t => rfl, fun t => rfl, fun t => rfl,
    fun t => rfl, fun t => rfl, fun t => rfl, fun t => rfl, fun t => rfl, fun t => rfl⟩
  intro utils t
  cases h : (SteamImageInfo.FromImageHandle utils t.fImageHandle).IsValid <;>
    simp [DispatchUserAchievementIconFetchedEventTaskS.PushLuaEventTableTo,
      SteamImageInfo.IsNotValid, h]

/-- C9: in setUserStatValues, the SDK writes issued are exactly those of
the valid array elements, in array order (invalid elements are skipped
without aborting the rest); for an integer-typed element the written
value is the supplied number rounded to the nearest integer (halfway away
from zero, as std::lround) and then clamped into the signed 32-bit range;
and the function returns true if and only if at least one of the issued
writes succeeded. -/
theorem claim9_set_user_stat_values (env : UserStatsEnv)
    (entries : List LuaStatEntry) :
    ((OnSetUserStatValuesLoop env entries).1
        = entries.filterMap processStatEntry)
    ∧ ((OnSetUserStatValuesLoop env entries).2 = true ↔
        ∃ c ∈ entries.filterMap processStatEntry, env.succeeds c = true)
    ∧ (∀ (n : String) (v : ℚ) (sess : Option ℚ), n ≠ "" →
        processStatEntry ⟨true, some n, some "int", some v, sess⟩
          = some (SdkStatCall.setIntStat n (clampToInt32 (lround v)))) := by
  refine ⟨onSetUserStatValuesLoop_fst env entries, ?_, ?_⟩
  · rw [onSetUserStatValuesLoop_snd env entries, List.any_eq_true]
  · intro n v sess hn
    simp [processStatEntry, SteamStatValueTypeS.FromCoronaStringId, hn]

/-- C9 witness: the loop evaluated on a concrete element list with an
always-succeeding SDK, plus the integer rounding and clamping path at the
concrete value 5/2 (rounded to 3). -/
theorem claim9_witness :
    processStatEntry ⟨true, some "distance", some "int", some (5 / 2 : ℚ), none⟩
        = some (SdkStatCall.setIntStat "distance" (clampToInt32 (lround (5 / 2 : ℚ))))
    ∧ clampToInt32 (lround (5 / 2 : ℚ)) = 3 :=
  ⟨(claim9_set_user_stat_values
        ⟨fun _ _ => true, fun _ _ => true, fun _ _ _ => true⟩ []).2.2
      "distance" (5 / 2 : ℚ) none (by decide),
    by
      have h2 : lround (5 / 2 : ℚ) = 3 := by
        unfold lround
        rw [if_pos (by norm_num)]
        have h1 : ((5 : ℚ) / 2 + 1 / 2) = ((3 : Int) : ℚ) := by norm_num
        rw [h1, Int.floor_intCast]
      rw [h2]
      decide⟩

/-- C10: when the SteamUtils interface is available and the game ID
carried by a global Steam event differs (as a CGameID) from the running
application ID, OnHandleGlobalSteamEventWithGameId returns the context
state unchanged: no dispatch task is created or enqueued and the event is
silently dropped. -/
theorem claim10_game_id_filter_drops (st : RuntimeContextS) (appId : Nat)
    (e : GlobalSteamEventWithGameId)
    (mkTask : GlobalSteamEventWithGameId → BaseDispatchEventTaskS)
    (h : CGameIDFromAppId appId ≠ CGameIDFromUint64 e.m_nGameID) :
    st.OnHandleGlobalSteamEventWithGameId (some appId) (some e)
        GlobalSteamEventWithGameId.m_nGameID mkTask = st := by
  simp [RuntimeContextS.OnHandleGlobalSteamEventWithGameId, h]

/-- C10 witness: a concrete foreign-application event (running app 480,
event game ID 570) is dropped without touching the queue. -/
theorem claim10_witness :
    RuntimeContextS.OnHandleGlobalSteamEventWithGameId RuntimeContextS.initial
        (some 480) (some ⟨570⟩) GlobalSteamEventWithGameId.m_nGameID
        (fun _ => ⟨true, true, true, true⟩)
      = RuntimeContextS.initial :=
  claim10_game_id_filter_drops RuntimeContextS.initial 480 ⟨570⟩
    (fun _ => ⟨true, true, true, true⟩) (by decide)

end Steamworks
